import Mathlib

/-!
Verification of the timeline schema / migration / validation / robust-loading
subsystem of the video-editor backend (`backend/app/backend/command_api.py`).

Embedding conventions:
* JSON values are embedded as the inductive `JVal`.  Python's `int`/`float`
  distinction (observed by the validators through `isinstance`) is kept via
  `jint`/`jfloat`.
* Python `float` arithmetic is modelled as exact rational arithmetic (`Q`
  below, a normalized numerator/denominator pair).  None of the checked
  properties depends on binary floating-point rounding.
* Fallible Python expressions (attribute access on non-dicts, comparisons or
  arithmetic on non-numbers, division by zero, missing keys) are embedded in
  `Except PyErr`; Python's mutate-then-raise behaviour on the loader's stats
  dict is embedded in `EStateM PyErr LoadingStats`, whose errors preserve
  state exactly as a raised Python exception leaves prior mutations in place.
* The classes of `app/timeline.py` (`Timeline`, `VideoClip`, `Effect`),
  which the loading code imports but whose source is not part of the provided
  files, are modelled from the spec; each such definition is marked
  `Modelled from the spec:` in its doc comment.
-/

/-- Exact rational numbers with a positive denominator, kept normalized by
construction (every operation goes through `Q.norm`).  Stands in for Python
`float` values, which the embedded code only combines with `+`, `-`, `*`,
`/`, `abs`, comparisons and `round`. -/
structure Q where
  num : Int
  den : Nat
  deriving DecidableEq

namespace Q

/-- Build the normalized rational `n / d` (callers guarantee `d ≠ 0`;
`d = 0` yields the junk value `0/1`, never exercised). -/
def norm (n d : Int) : Q :=
  let n := if d < 0 then -n else n
  let d := (if d < 0 then -d else d).toNat
  let g := Nat.gcd n.natAbs d
  if g = 0 then ⟨0, 1⟩ else ⟨n / (g : Int), d / g⟩

def ofInt (n : Int) : Q := ⟨n, 1⟩

def add (a b : Q) : Q := norm (a.num * b.den + b.num * a.den) (a.den * b.den)

def sub (a b : Q) : Q := norm (a.num * b.den - b.num * a.den) (a.den * b.den)

def mul (a b : Q) : Q := norm (a.num * b.num) (a.den * b.den)

/-- True division (callers guard against a zero divisor, raising
`ZeroDivisionError` before calling this). -/
def div (a b : Q) : Q := norm (a.num * b.den) (a.den * b.num)

def qabs (a : Q) : Q := ⟨if a.num < 0 then -a.num else a.num, a.den⟩

def ble (a b : Q) : Bool := a.num * b.den ≤ b.num * a.den

def blt (a b : Q) : Bool := a.num * b.den < b.num * a.den

def beq (a b : Q) : Bool := a.num == b.num && a.den == b.den

def isZero (a : Q) : Bool := a.num == 0

/-- Floor of a rational (the denominator is positive). -/
def qfloor (a : Q) : Int := a.num.fdiv a.den

/-- Round half up: `⌊q + 1/2⌋`.  Models the spec's "round to the nearest
integer frame" (§4.1); no checked input sits on a half-frame boundary, so
the tie-breaking direction is immaterial to the claims. -/
def roundq (a : Q) : Int := qfloor (add a ⟨1, 2⟩)

def qmax (a b : Q) : Q := if ble a b then b else a

/-- Decimal rendering of a rational with denominator 1 (`str(5.0) = "5.0"`);
other denominators never reach a checked message. -/
def pyRepr (a : Q) : String :=
  if a.den == 1 then toString a.num ++ ".0"
  else toString a.num ++ "/" ++ toString a.den

end Q

/-- Python code-point comparison of strings (strict `<`), structural so that
it evaluates in the kernel. -/
def strLtB : List Char → List Char → Bool
  | [], [] => false
  | [], _ :: _ => true
  | _ :: _, [] => false
  | a :: as, b :: bs =>
    if a.toNat < b.toNat then true
    else if b.toNat < a.toNat then false
    else strLtB as bs

/-- Whether `needle` is a prefix of `hay` (code-point equality). -/
def charListPrefix : List Char → List Char → Bool
  | [], _ => true
  | _ :: _, [] => false
  | a :: as, b :: bs => a.toNat == b.toNat && charListPrefix as bs

/-- Whether `needle` occurs as a contiguous substring of `hay` (Python's
`needle in hay` for strings). -/
def charListInfix (needle hay : List Char) : Bool :=
  if charListPrefix needle hay then true
  else match hay with
    | [] => false
    | _ :: rest => charListInfix needle rest

/-- Python exception values, reduced to the constructors the embedded code
can raise.  Message payloads are carried as strings. -/
inductive PyErr where
  | typeError
  | attributeError
  | zeroDivisionError
  | keyError (k : String)
  | valueError (msg : String)
  | fileNotFoundError (msg : String)
  deriving DecidableEq

/-- Rendering of an exception for `str(e)` interpolations (no claim inspects
these messages, so the rendering is schematic). -/
def PyErr.pyStr : PyErr → String
  | .typeError => "TypeError"
  | .attributeError => "AttributeError"
  | .zeroDivisionError => "division by zero"
  | .keyError k => k
  | .valueError msg => msg
  | .fileNotFoundError msg => msg

/-- A JSON value as manipulated by the Python code (a `dict` is a list of
key/value pairs in insertion order, as Python dicts are ordered; keys are
unique in every document the code builds or receives). -/
inductive JVal where
  | jnull
  | jbool (b : Bool)
  | jint (n : Int)
  | jfloat (q : Q)
  | jstr (s : String)
  | jlist (xs : List JVal)
  | jobj (fields : List (String × JVal))

namespace JVal

/-- Dictionary lookup (first matching key). -/
def lookup : List (String × JVal) → String → Option JVal
  | [], _ => none
  | (k, v) :: rest, key => if k = key then some v else lookup rest key

/-- Python `d.get(k)` for a value known to be a dict: `none` when the value
is not a dict or the key is absent. -/
def pyGet (d : JVal) (k : String) : Option JVal :=
  match d with
  | jobj fs => lookup fs k
  | _ => none

/-- Python `d.get(k, default)` for a value known to be a dict. -/
def pyGetD (d : JVal) (k : String) (dflt : JVal) : JVal :=
  (d.pyGet k).getD dflt

def isObj : JVal → Bool
  | jobj _ => true
  | _ => false

/-- Numeric view: Python treats `bool` as a subtype of `int`. -/
def asNum : JVal → Option Q
  | jbool b => some (if b then ⟨1, 1⟩ else ⟨0, 1⟩)
  | jint n => some ⟨n, 1⟩
  | jfloat q => some q
  | _ => none

/-- `isinstance(v, (int, float))`. -/
def pyIsNum (v : JVal) : Bool := v.asNum.isSome

/-- `isinstance(v, int)` (true for `bool` as well, as in Python). -/
def pyIsInt : JVal → Bool
  | jbool _ => true
  | jint _ => true
  | _ => false

/-- Python truthiness. -/
def truthy : JVal → Bool
  | jnull => false
  | jbool b => b
  | jint n => n != 0
  | jfloat q => !q.isZero
  | jstr s => !s.isEmpty
  | jlist xs => !xs.isEmpty
  | jobj fs => !fs.isEmpty

/-- Rendering of a value inside a Python f-string (`str(v)`).  Exact for the
scalar shapes the checked messages interpolate; containers are rendered
coarsely (no claim inspects a message that interpolates a container). -/
def pyStr : JVal → String
  | jnull => "None"
  | jbool b => if b then "True" else "False"
  | jint n => toString n
  | jfloat q => q.pyRepr
  | jstr s => s
  | jlist _ => "[...]"
  | jobj _ => "\x7b...\x7d"

/-- `str(type(v))`, used by the clip validator's error messages. -/
def pyTypeName : JVal → String
  | jnull => "<class 'NoneType'>"
  | jbool _ => "<class 'bool'>"
  | jint _ => "<class 'int'>"
  | jfloat _ => "<class 'float'>"
  | jstr _ => "<class 'str'>"
  | jlist _ => "<class 'list'>"
  | jobj _ => "<class 'dict'>"

end JVal

open JVal

/-- Python `==` between JSON values: numeric cross-type equality, scalar
structural equality otherwise.  The embedded code only ever compares scalars
(version strings, the clip `_type` tag, track keys), so container equality
(which Python performs deeply) is not exercised and is modelled as `false`. -/
def pyEq (a b : JVal) : Bool :=
  match a.asNum, b.asNum with
  | some x, some y => x.beq y
  | _, _ =>
    match a, b with
    | .jnull, .jnull => true
    | .jstr s, .jstr t => s == t
    | _, _ => false

/-- Python `a < b`: defined for number/number and string/string pairs,
`TypeError` otherwise. -/
def pyLt (a b : JVal) : Except PyErr Bool :=
  match a.asNum, b.asNum with
  | some x, some y => .ok (x.blt y)
  | _, _ =>
    match a, b with
    | .jstr s, .jstr t => .ok (strLtB s.toList t.toList)
    | _, _ => .error .typeError

/-- Python `a <= b`. -/
def pyLe (a b : JVal) : Except PyErr Bool :=
  match a.asNum, b.asNum with
  | some x, some y => .ok (x.ble y)
  | _, _ =>
    match a, b with
    | .jstr s, .jstr t => .ok (!strLtB t.toList s.toList)
    | _, _ => .error .typeError

/-- Python `a + b` (`int + int` stays `int`, any `float` operand makes the
result `float`; `TypeError` for the non-numeric operands the embedded code
can feed it). -/
def pyAdd (a b : JVal) : Except PyErr JVal :=
  match a.asNum, b.asNum with
  | some x, some y =>
    .ok (if a.pyIsInt && b.pyIsInt then .jint (x.add y).num else .jfloat (x.add y))
  | _, _ => .error .typeError

/-- Python `a - b`. -/
def pySub (a b : JVal) : Except PyErr JVal :=
  match a.asNum, b.asNum with
  | some x, some y =>
    .ok (if a.pyIsInt && b.pyIsInt then .jint (x.sub y).num else .jfloat (x.sub y))
  | _, _ => .error .typeError

/-- Python true division `a / b`: always a `float`; `ZeroDivisionError` on a
zero divisor, `TypeError` on non-numbers. -/
def pyDiv (a b : JVal) : Except PyErr JVal :=
  match a.asNum, b.asNum with
  | some x, some y =>
    if y.isZero then .error .zeroDivisionError else .ok (.jfloat (x.div y))
  | _, _ => .error .typeError

/-- Python `v.get(k, default)` where `v` is untrusted data and may not be a
dict (`AttributeError` then, as in Python). -/
def pyGetAttrD (v : JVal) (k : String) (dflt : JVal) : Except PyErr JVal :=
  match v with
  | .jobj fs => .ok ((lookup fs k).getD dflt)
  | _ => .error .attributeError

/-- Python `v[k]` for a string key. -/
def pySubscript (v : JVal) (k : String) : Except PyErr JVal :=
  match v with
  | .jobj fs =>
    match lookup fs k with
    | some x => .ok x
    | none => .error (.keyError k)
  | _ => .error .typeError

/-- Python `k in v` for a string `k`: dict key membership, substring test on
strings, element membership on lists (via `==`); `TypeError` otherwise. -/
def pyContains (v : JVal) (k : String) : Except PyErr Bool :=
  match v with
  | .jobj fs => .ok (lookup fs k).isSome
  | .jstr s => .ok (charListInfix k.toList s.toList)
  | .jlist xs => .ok (xs.any (fun x => pyEq (.jstr k) x))
  | _ => .error .typeError

/-- Python iteration over a value: lists yield their elements, strings their
one-character substrings, dicts their keys; other values raise `TypeError`. -/
def pyIter : JVal → Except PyErr (List JVal)
  | .jlist xs => .ok xs
  | .jstr s => .ok (s.toList.map fun c => .jstr c.toString)
  | .jobj fs => .ok (fs.map fun kv => .jstr kv.1)
  | _ => .error .typeError

/-- Stable insertion into a sorted list: the new element goes after any
element that compares `le` to it, so elements with equal keys keep their
original relative order. -/
def insertSorted (le : α → α → Bool) (x : α) : List α → List α
  | [] => [x]
  | y :: ys => if le y x then y :: insertSorted le x ys else x :: y :: ys

/-- Stable sort (models Python's `list.sort`, which is stable). -/
def pySort (le : α → α → Bool) (xs : List α) : List α :=
  xs.foldl (fun acc x => insertSorted le x acc) []

/-- Python `f"{x:.1f}"` for the non-negative values the integrity validator
prints (the checked inputs are exact at one decimal, so the half-to-even
tie-break of Python's formatting never fires). -/
def fmtOneDecimal (q : Q) : String :=
  let n := (Q.roundq (q.mul ⟨10, 1⟩)).toNat
  toString (n / 10) ++ "." ++ toString (n % 10)


/-! ## Entity model (`app/timeline.py`, modelled from the spec)

The loading code imports `Timeline`, `VideoClip` and `Effect` from
`app.timeline`, whose source is not among the provided files; the data model
and the methods used by the loader are modelled from spec §3, §4.1, §4.2 and
§4.7. -/

/-- Modelled from the spec: §3 — an `Effect` is a `type` tag plus a property
map.  `app/timeline.py` (its defining module) is not part of the provided
sources.  No claim inspects effect contents. -/
structure Effect where
  type : JVal
  properties : JVal

/-- Modelled from the spec: `Effect.from_dict` builds an `Effect` from a
persisted record (§3's `type` + `properties` shape); a non-dict record fails,
which is all the robust clip builder's per-effect `try/except` observes. -/
def Effect.from_dict (v : JVal) : Except PyErr Effect :=
  match v with
  | .jobj _ => .ok ⟨v.pyGetD "type" .jnull, v.pyGetD "properties" (.jobj [])⟩
  | _ => .error .attributeError

/-- Modelled from the spec: §3 — a placed clip, frame-indexed.  Python
exposes `start_frame`/`end_frame` as the attributes `.start`/`.end` read by
the integrity validator.  Fields the persisted record supplies untyped
(`name`, `track_type`, `file_path`, `clip_id`, `track_index`) stay `JVal`.
Construction-site defaults (per the constructor calls in the provided
sources): `track_type="video"`, `file_path=None`, `clip_id=None`,
`in_point=0`, `track_index=0`, `effects=[]`. -/
structure VideoClip where
  name : JVal
  start_frame : Int
  end_frame : Int
  track_type : JVal
  file_path : JVal
  clip_id : JVal
  in_point : Int
  track_index : JVal
  effects : List Effect

/-- Modelled from the spec: §3 — a track owns an ordered list of clips and is
identified by `(track_type, track_index)`. -/
structure Track where
  track_type : JVal
  track_index : JVal
  clips : List VideoClip

/-- Modelled from the spec: §3 — a timeline owns a frame rate and an ordered
list of tracks. -/
structure Timeline where
  frame_rate : Q
  tracks : List Track

/-- Modelled from the spec: §4.1 — seconds-to-frames conversion rounds to the
nearest integer frame.  The argument arrives as untyped JSON data;
multiplying a non-number by the frame rate raises `TypeError` in Python. -/
def Timeline.seconds_to_frames (tl : Timeline) (v : JVal) : Except PyErr Int :=
  match v.asNum with
  | some q => .ok (Q.roundq (q.mul tl.frame_rate))
  | none => .error .typeError

/-- Helper for `Timeline.add_clip`: append the clip to the first track whose
`(track_type, track_index)` key matches, or append a fresh track. -/
def addToTracks (clip : VideoClip) (ti : JVal) : List Track → List Track
  | [] => [⟨clip.track_type, ti, [clip]⟩]
  | t :: ts =>
    if pyEq t.track_type clip.track_type && pyEq t.track_index ti then
      { t with clips := t.clips ++ [clip] } :: ts
    else
      t :: addToTracks clip ti ts

/-- Modelled from the spec: §3/§4.2 — clips are grouped into tracks keyed by
`(track_type, track)`; adding a clip appends it to its track's ordered clip
list, creating the track when absent.  The spec gives `add_clip` no failure
mode, so it is total. -/
def Timeline.add_clip (tl : Timeline) (clip : VideoClip) (track_index : JVal) : Timeline :=
  { tl with tracks := addToTracks clip track_index tl.tracks }

/-- Modelled from the spec: §3 — `duration_frames` is the maximum `end_frame`
over all clips (`0` with no clips). -/
def Timeline.duration_frames (tl : Timeline) : Int :=
  tl.tracks.foldl (fun acc t => t.clips.foldl (fun a c => max a c.end_frame) acc) 0

/-- Modelled from the spec: §3 — `duration_seconds = duration_frames /
frame_rate`.  Callers guard the zero-frame-rate `ZeroDivisionError`. -/
def Timeline.get_duration_seconds (tl : Timeline) : Q :=
  (Q.ofInt tl.duration_frames).div tl.frame_rate

/-- Modelled from the spec: §4.7 step 1 — `load_video` seeds a fresh timeline
with one full-duration clip for the primary asset on video track 0. -/
def Timeline.load_video (tl : Timeline) (asset_path : String) (duration_seconds : Q) : Timeline :=
  let frames := Q.roundq (duration_seconds.mul tl.frame_rate)
  tl.add_clip
    ⟨.jstr asset_path, 0, frames, .jstr "video", .jstr asset_path, .jnull, 0, .jint 0, []⟩
    (.jint 0)

/-- Modelled from the spec: the legacy decoder used as the enhanced loader's
second fallback — it reads the §6 v1.0 track-nested, frame-indexed shape
(`frame_rate`, `tracks[].clips[]` with integer `start`/`end`/`in_point`),
failing on records that do not fit.  No claim exercises this path; it exists
so the fallback chain has the shape the source gives it. -/
def Timeline.from_dict (d : JVal) : Except PyErr Timeline := do
  let frJ ← pyGetAttrD d "frame_rate" (.jfloat ⟨30, 1⟩)
  let fr ← match frJ.asNum with
    | some q => Except.ok q
    | none => Except.error .typeError
  let tracksJ ← pyGetAttrD d "tracks" (.jlist [])
  let tracks ← pyIter tracksJ
  let mut tl := Timeline.mk fr []
  for track in tracks do
    let clipsJ ← pyGetAttrD track "clips" (.jlist [])
    let clips ← pyIter clipsJ
    for c in clips do
      let sJ ← pyGetAttrD c "start" (.jint 0)
      let eJ ← pyGetAttrD c "end" (.jint 0)
      let ipJ ← pyGetAttrD c "in_point" (.jint 0)
      let toFrame : JVal → Except PyErr Int := fun v =>
        match v with
        | .jint n => .ok n
        | .jfloat q => .ok (Q.roundq q)
        | _ => .error .typeError
      let s ← toFrame sJ
      let e ← toFrame eJ
      let ip ← toFrame ipJ
      let ti ← pyGetAttrD c "track_index" (.jint 0)
      let tt ← pyGetAttrD c "track_type" (.jstr "video")
      let name ← pyGetAttrD c "name" (.jstr "")
      let fp ← pyGetAttrD c "file_path" .jnull
      let cid ← pyGetAttrD c "clip_id" .jnull
      tl := tl.add_clip ⟨name, s, e, tt, fp, cid, ip, ti, []⟩ ti
  pure tl

/-! ## Schema migration (`migrate_timeline_schema`, command_api.py lines
126-194)

Timestamps: the migrator stamps `metadata.created_at`/`updated_at` with
`datetime.utcnow().isoformat() + "Z"`; the wall-clock string is passed in as
the parameter `now`.  `logging.warning` calls are collected in the returned
list (the `logging.info` calls carry no claim-relevant content and are not
collected). -/

def TIMELINE_SCHEMA_VERSION : String := "2.0"

/-- One v1.0 clip record converted to the v2.0 shape (lines 155-166):
frame-unit `start`/`end`/`in_point` divided by the document-level
`frame_rate` (default 30.0). -/
def migrateClip (timeline_json clip : JVal) : Except PyErr JVal := do
  let fr0 ← pyGetAttrD timeline_json "frame_rate" (.jfloat ⟨30, 1⟩)
  let ts ← pyDiv (clip.pyGetD "start" (.jint 0)) fr0
  let te ← pyDiv (clip.pyGetD "end" (.jint 0)) fr0
  let dsub ← pySub (clip.pyGetD "end" (.jint 0)) (clip.pyGetD "start" (.jint 0))
  let dur ← pyDiv dsub fr0
  let ip ← pyDiv (clip.pyGetD "in_point" (.jint 0)) fr0
  pure (.jobj [
    ("id", clip.pyGetD "clip_id" (clip.pyGetD "id" .jnull)),
    ("name", clip.pyGetD "name" (.jstr "")),
    ("file_path", clip.pyGetD "file_path" (.jstr "")),
    ("timeline_start", ts),
    ("timeline_end", te),
    ("duration", dur),
    ("in_point", ip),
    ("track", clip.pyGetD "track_index" (.jint 0)),
    ("type", clip.pyGetD "track_type" (.jstr "video")),
    ("effects", clip.pyGetD "effects" (.jlist []))])

/-- The nested clip walk of the v1.0→v2.0 migration (lines 147-167): clips
whose `_type` marker is not `"VideoClip"` (or that are not dicts) are
silently skipped. -/
def collectMigratedClips (timeline_json : JVal) : List JVal → Except PyErr (List JVal)
  | [] => .ok []
  | track :: rest => do
    let clipsJ ← pyGetAttrD track "clips" (.jlist [])
    let trackClips ← pyIter clipsJ
    let here ← collectFromTrack timeline_json trackClips
    let there ← collectMigratedClips timeline_json rest
    pure (here ++ there)
where
  collectFromTrack (timeline_json : JVal) : List JVal → Except PyErr (List JVal)
    | [] => .ok []
    | clip :: rest => do
      let rest ← collectFromTrack timeline_json rest
      if clip.isObj && pyEq (clip.pyGetD "_type" .jnull) (.jstr "VideoClip") then do
        let m ← migrateClip timeline_json clip
        pure (m :: rest)
      else
        pure rest

/-- `max([clip["timeline_end"] for clip in clips])` over the freshly built
v2.0 clip records (whose `timeline_end` is always a number by construction);
the caller handles the empty case. -/
def maxTimelineEnd : List JVal → Q → Q
  | [], acc => acc
  | c :: rest, acc =>
    maxTimelineEnd rest (acc.qmax (((c.pyGetD "timeline_end" (.jfloat ⟨0, 1⟩))).asNum.getD ⟨0, 1⟩))

/-- `migrate_timeline_schema` (lines 126-194): identity on v2.0 documents;
v1.0 documents are flattened to the v2.0 shape; any other version is
returned unchanged with an "Unknown timeline schema version" warning. -/
def migrate_timeline_schema (now : String) (timeline_json : JVal) :
    Except PyErr (JVal × List String) := do
  let current_version ← pyGetAttrD timeline_json "version" (.jstr "1.0")
  if pyEq current_version (.jstr "2.0") then
    pure (timeline_json, [])
  else if pyEq current_version (.jstr "1.0") then do
    let tracksJ ← pyGetAttrD timeline_json "tracks" (.jlist [])
    let tracks ← pyIter tracksJ
    let clips ← collectMigratedClips timeline_json tracks
    let frJ ← pyGetAttrD timeline_json "frame_rate" (.jfloat ⟨30, 1⟩)
    let duration : JVal :=
      match clips with
      | [] => .jfloat ⟨0, 1⟩
      | c :: rest =>
        .jfloat (maxTimelineEnd rest (((c.pyGetD "timeline_end" (.jfloat ⟨0, 1⟩))).asNum.getD ⟨0, 1⟩))
    let transitions ← pyGetAttrD timeline_json "transitions" (.jlist [])
    pure (.jobj [
      ("version", .jstr TIMELINE_SCHEMA_VERSION),
      ("timeline", .jobj [
        ("frame_rate", frJ),
        ("width", .jint 1920),
        ("height", .jint 1080),
        ("sample_rate", .jint 48000),
        ("channels", .jint 2),
        ("duration", duration)]),
      ("clips", .jlist clips),
      ("transitions", transitions),
      ("metadata", .jobj [
        ("created_at", .jstr (now ++ "Z")),
        ("updated_at", .jstr (now ++ "Z")),
        ("schema_version", .jstr TIMELINE_SCHEMA_VERSION),
        ("migrated_from", current_version)])], [])
  else
    pure (timeline_json, ["Unknown timeline schema version: " ++ current_version.pyStr])

/-! ## Validators (command_api.py lines 942-1162) -/

/-- The result dict each validator returns:
`{"valid": len(errors) == 0, "errors": errors}` (lines 990-993, 1073-1076,
1159-1162). -/
structure ValidationResult where
  valid : Bool
  errors : List String

/-- `{"valid": len(errors) == 0, "errors": errors}`. -/
def mkValidationResult (errors : List String) : ValidationResult :=
  ⟨errors.length == 0, errors⟩

/-- Error accumulation of `validate_timeline_json_structure` (lines 942-989).
The trailing `required_fields = ["version"]` loop re-checks the version key,
duplicating its missing-field error. -/
def timeline_structure_errors (timeline_json : JVal) : Except PyErr (List String) := do
  let hasVersion ← pyContains timeline_json "version"
  let versionErrs ←
    if !hasVersion then pure ["Missing version field"]
    else do
      let v ← pySubscript timeline_json "version"
      pure (match v with
        | .jstr _ => ([] : List String)
        | _ => ["Version must be a string"])
  let hasTimeline ← pyContains timeline_json "timeline"
  let timelineErrs ←
    if !hasTimeline then pure ["Missing timeline metadata"]
    else do
      let timeline_data ← pySubscript timeline_json "timeline"
      let frame_rate ← pyGetAttrD timeline_data "frame_rate" .jnull
      let frErrs :=
        match frame_rate with
        | .jnull => ["Missing frame_rate in timeline metadata"]
        | fr =>
          match fr.asNum with
          | some q => if q.ble ⟨0, 1⟩ then ["Invalid frame_rate: " ++ fr.pyStr] else []
          | none => ["Invalid frame_rate: " ++ fr.pyStr]
      let duration ← pyGetAttrD timeline_data "duration" .jnull
      let durErrs :=
        match duration with
        | .jnull => []
        | d =>
          match d.asNum with
          | some q => if q.blt ⟨0, 1⟩ then ["Invalid duration: " ++ d.pyStr] else []
          | none => ["Invalid duration: " ++ d.pyStr]
      pure (frErrs ++ durErrs)
  let hasClips ← pyContains timeline_json "clips"
  let clipsErrs ←
    if !hasClips then pure ["Missing clips array"]
    else do
      let c ← pySubscript timeline_json "clips"
      pure (match c with
        | .jlist _ => ([] : List String)
        | _ => ["Clips must be an array"])
  let requiredErrs := if !hasVersion then ["Missing required field: version"] else []
  pure (versionErrs ++ timelineErrs ++ clipsErrs ++ requiredErrs)

/-- `validate_timeline_json_structure` (lines 942-993). -/
def validate_timeline_json_structure (timeline_json : JVal) :
    Except PyErr ValidationResult :=
  (timeline_structure_errors timeline_json).map mkValidationResult

/-- Error accumulation of `validate_clip_data` (lines 995-1072).  The
`timeline` argument is only a frame-rate reference in the source and is
unused by the checks. -/
def clip_data_errors (clip_data : JVal) (_timeline : Timeline) :
    Except PyErr (List String) := do
  let idHas ← pyContains clip_data "id"
  let idErrs ←
    if !idHas then pure ["Missing required field: id"]
    else do
      let v ← pySubscript clip_data "id"
      pure (if !v.truthy then ["Empty required field: id"] else [])
  let nameHas ← pyContains clip_data "name"
  let nameErrs ←
    if !nameHas then pure ["Missing required field: name"]
    else do
      let v ← pySubscript clip_data "name"
      pure (if !v.truthy then ["Empty required field: name"] else [])
  let timeline_start ← pyGetAttrD clip_data "timeline_start" .jnull
  let timeline_end ← pyGetAttrD clip_data "timeline_end" .jnull
  let tsErrs :=
    match timeline_start with
    | .jnull => []
    | ts =>
      match ts.asNum with
      | none => ["Invalid timeline_start type: " ++ ts.pyTypeName]
      | some q => if q.blt ⟨0, 1⟩ then ["Negative timeline_start: " ++ ts.pyStr] else []
  let teErrs :=
    match timeline_end with
    | .jnull => []
    | te =>
      match te.asNum with
      | none => ["Invalid timeline_end type: " ++ te.pyTypeName]
      | some q => if q.blt ⟨0, 1⟩ then ["Negative timeline_end: " ++ te.pyStr] else []
  let ordErrs ←
    match timeline_start, timeline_end with
    | .jnull, _ => pure ([] : List String)
    | _, .jnull => pure ([] : List String)
    | ts, te => do
      let le ← pyLe te ts
      pure (if le then
        ["timeline_end (" ++ te.pyStr ++ ") must be greater than timeline_start ("
          ++ ts.pyStr ++ ")"]
      else [])
  let duration ← pyGetAttrD clip_data "duration" .jnull
  let durErrs ←
    match duration with
    | .jnull => pure ([] : List String)
    | d => do
      let typeErrs :=
        match d.asNum with
        | none => ["Invalid duration type: " ++ d.pyTypeName]
        | some q => if q.ble ⟨0, 1⟩ then ["Non-positive duration: " ++ d.pyStr] else []
      let consErrs ←
        match timeline_start, timeline_end with
        | .jnull, _ => pure ([] : List String)
        | _, .jnull => pure ([] : List String)
        | ts, te => do
          let expected ← pySub te ts
          let diff ← pySub d expected
          let diffQ := diff.asNum.getD ⟨0, 1⟩
          pure (if Q.blt ⟨1, 100⟩ (Q.qabs diffQ) then
            ["Duration " ++ d.pyStr ++ " doesn't match timeline positions (expected "
              ++ expected.pyStr ++ ")"]
          else [])
      pure (typeErrs ++ consErrs)
  let in_point ← pyGetAttrD clip_data "in_point" .jnull
  let ipErrs :=
    match in_point with
    | .jnull => []
    | ip =>
      match ip.asNum with
      | none => ["Invalid in_point type: " ++ ip.pyTypeName]
      | some q => if q.blt ⟨0, 1⟩ then ["Negative in_point: " ++ ip.pyStr] else []
  let track ← pyGetAttrD clip_data "track" .jnull
  let trackErrs :=
    match track with
    | .jnull => []
    | t =>
      if !t.pyIsInt then
        ["Invalid track type: " ++ t.pyTypeName ++ " (must be int)"]
      else
        match t.asNum with
        | some q => if q.blt ⟨0, 1⟩ then ["Negative track index: " ++ t.pyStr] else []
        | none => []
  let clip_type ← pyGetAttrD clip_data "type" .jnull
  let typeErrs :=
    match clip_type with
    | .jnull => []
    | t =>
      let valid_types := ["video", "audio", "subtitle", "effect", "image", "text"]
      if valid_types.any (fun s => pyEq t (.jstr s)) then []
      else
        ["Invalid clip type: " ++ t.pyStr
          ++ " (must be one of ['video', 'audio', 'subtitle', 'effect', 'image', 'text'])"]
  pure (idErrs ++ nameErrs ++ tsErrs ++ teErrs ++ ordErrs ++ durErrs ++ ipErrs
    ++ trackErrs ++ typeErrs)

/-- `validate_clip_data` (lines 995-1076). -/
def validate_clip_data (clip_data : JVal) (timeline : Timeline) :
    Except PyErr ValidationResult :=
  (clip_data_errors clip_data timeline).map mkValidationResult

/-- Overlap scan for one track (lines 1117-1133): clips are projected to
`(start, end, name)` tuples, sorted stably by start, and **every** violating
adjacent pair is reported. -/
def adjacentOverlapErrors (track_type : JVal) : List (Int × Int × JVal) → List String
  | (_s1, e1, n1) :: (s2, e2, n2) :: rest =>
    (if e1 > s2 then
      ["Clip overlap detected on track " ++ track_type.pyStr ++ ": " ++ n1.pyStr
        ++ " ends at " ++ toString e1 ++ " but " ++ n2.pyStr ++ " starts at "
        ++ toString s2]
    else [])
    ++ adjacentOverlapErrors track_type ((s2, e2, n2) :: rest)
  | _ => []

/-- One track's overlap errors: projection, stable sort by start frame, scan
(the `hasattr(clip, 'start')` guards always hold on the modelled clips). -/
def trackOverlapErrors (t : Track) : List String :=
  let clips := t.clips.map (fun c => (c.start_frame, c.end_frame, c.name))
  let sorted := pySort (fun a b => decide (a.1 ≤ b.1)) clips
  adjacentOverlapErrors t.track_type sorted

/-- The two per-clip defensive checks of lines 1145-1154: impossible timing,
and a duration above 24 hours of timeline time. -/
def clipTimingErrors (frame_rate : Q) (c : VideoClip) : List String :=
  let timingErrs :=
    if c.end_frame ≤ c.start_frame then
      ["Invalid clip timing: " ++ c.name.pyStr ++ " ends (" ++ toString c.end_frame
        ++ ") before or at start (" ++ toString c.start_frame ++ ")"]
    else []
  let clip_duration_hours := ((Q.ofInt (c.end_frame - c.start_frame)).div frame_rate).div ⟨3600, 1⟩
  let longErrs :=
    if Q.blt ⟨24, 1⟩ clip_duration_hours then
      ["Suspiciously long clip: " ++ c.name.pyStr ++ " duration is "
        ++ fmtOneDecimal clip_duration_hours ++ " hours"]
    else []
  timingErrs ++ longErrs

/-- `all_clips` accumulation of lines 1141-1143. -/
def allClips (timeline : Timeline) : List VideoClip :=
  timeline.tracks.foldl (fun acc t => acc ++ t.clips) []

/-- `validate_timeline_integrity` (lines 1103-1162).  The function wraps its
body in `try/except`, appending `"Timeline integrity check failed: ..."` on
an exception; on the typed `Timeline` of this embedding the body's only
possible exception is the `ZeroDivisionError` of a zero frame rate, first
raised inside `get_duration_seconds` — after the overlap scan has already
extended `errors` in place. -/
def timeline_integrity_errors (timeline : Timeline) : List String :=
  let overlapErrs := (timeline.tracks.map trackOverlapErrors).flatten
  if timeline.frame_rate.isZero then
    overlapErrs ++ ["Timeline integrity check failed: division by zero"]
  else
    let calculated_duration := timeline.get_duration_seconds
    let durErrs :=
      if Q.blt calculated_duration ⟨0, 1⟩ then
        ["Negative timeline duration: " ++ calculated_duration.pyRepr]
      else []
    let clipErrs := ((allClips timeline).map (clipTimingErrors timeline.frame_rate)).flatten
    overlapErrs ++ durErrs ++ clipErrs

/-- The single return site of `validate_timeline_integrity`
(lines 1159-1162). -/
def validate_timeline_integrity (timeline : Timeline) : ValidationResult :=
  mkValidationResult (timeline_integrity_errors timeline)

/-! ## Clip construction (command_api.py lines 88-124 and 1164-1231) -/

/-- `create_video_clip_from_json` (lines 88-124), the non-robust builder used
by the enhanced loader: no clamping, `clip_data["name"]` raises `KeyError`
when absent, and a failing effect record aborts the whole construction. -/
def create_video_clip_from_json (clip_data : JVal) (timeline : Timeline) :
    Except PyErr VideoClip := do
  let startD ← pyGetAttrD clip_data "start" (.jint 0)
  let start_seconds ← pyGetAttrD clip_data "timeline_start" startD
  let endD ← pyGetAttrD clip_data "end" (.jint 0)
  let end_seconds ← pyGetAttrD clip_data "timeline_end" endD
  let in_point_seconds ← pyGetAttrD clip_data "in_point" (.jint 0)
  let start_frame ← timeline.seconds_to_frames start_seconds
  let end_frame ← timeline.seconds_to_frames end_seconds
  let in_point_frame ← timeline.seconds_to_frames in_point_seconds
  let name ← pySubscript clip_data "name"
  let track_type ← pyGetAttrD clip_data "type" (.jstr "video")
  let file_path ← pyGetAttrD clip_data "file_path" .jnull
  let clip_id ← pyGetAttrD clip_data "id" .jnull
  let track_index ← pyGetAttrD clip_data "track" (.jint 0)
  let hasEffects ← pyContains clip_data "effects"
  let effects ←
    if hasEffects then do
      let ev ← pySubscript clip_data "effects"
      match ev with
      | .jlist xs => xs.mapM Effect.from_dict
      | _ => pure []
    else pure []
  pure ⟨name, start_frame, end_frame, track_type, file_path, clip_id,
    in_point_frame, track_index, effects⟩

/-- The per-effect loop of lines 1212-1218: each effect gets its own
`try/except`; failures are logged and skipped. -/
def robustEffects (clipName : JVal) : List JVal → List Effect × List String
  | [] => ([], [])
  | e :: rest =>
    let (effs, ws) := robustEffects clipName rest
    match Effect.from_dict e with
    | .ok eff => (eff :: effs, ws)
    | .error err =>
      (effs, ("Failed to load effect for clip " ++ clipName.pyStr ++ ": "
        ++ err.pyStr) :: ws)

/-- The `try` body of `create_video_clip_from_json_robust` (lines 1175-1220):
clamp a negative start to 0, replace a non-increasing end by `start + 1`
**second**, clamp a negative in-point to 0, convert to frames, build the
clip.  The string list collects the `logging` warnings (log-only: the loader
does not record them in its stats).  The `clip_data.get('name', 'unknown')`
of the warning texts is read once up front; by the time any warning fires the
record is known to be a dict, so the early read cannot change behaviour. -/
def robust_clip_body (clip_data : JVal) (timeline : Timeline) :
    Except PyErr (VideoClip × List String) := do
  let startD ← pyGetAttrD clip_data "start" (.jint 0)
  let start_seconds0 ← pyGetAttrD clip_data "timeline_start" startD
  let endD ← pyGetAttrD clip_data "end" (.jint 0)
  let end_seconds0 ← pyGetAttrD clip_data "timeline_end" endD
  let in_point_seconds0 ← pyGetAttrD clip_data "in_point" (.jint 0)
  let warnName ← pyGetAttrD clip_data "name" (.jstr "unknown")
  let negStart ← pyLt start_seconds0 (.jint 0)
  let (start_seconds, w1) :=
    if negStart then
      (JVal.jint 0, ["Negative start time " ++ start_seconds0.pyStr ++ " for clip "
        ++ warnName.pyStr ++ ", using 0"])
    else (start_seconds0, [])
  let badEnd ← pyLe end_seconds0 start_seconds
  let (end_seconds, w2) ←
    if badEnd then do
      let bumped ← pyAdd start_seconds (.jint 1)
      pure (bumped, ["Invalid end time " ++ end_seconds0.pyStr ++ " for clip "
        ++ warnName.pyStr ++ ", adding 1 second"])
    else pure (end_seconds0, ([] : List String))
  let negIp ← pyLt in_point_seconds0 (.jint 0)
  let (in_point_seconds, w3) :=
    if negIp then
      (JVal.jint 0, ["Negative in_point " ++ in_point_seconds0.pyStr ++ " for clip "
        ++ warnName.pyStr ++ ", using 0"])
    else (in_point_seconds0, [])
  let start_frame ← timeline.seconds_to_frames start_seconds
  let end_frame ← timeline.seconds_to_frames end_seconds
  let in_point_frame ← timeline.seconds_to_frames in_point_seconds
  let name := clip_data.pyGetD "name" (.jstr "Unknown Clip")
  let track_type := clip_data.pyGetD "type" (.jstr "video")
  let file_path := clip_data.pyGetD "file_path" .jnull
  let clip_id := clip_data.pyGetD "id" .jnull
  let track_index := clip_data.pyGetD "track" (.jint 0)
  let (effects, w4) :=
    match clip_data.pyGet "effects" with
    | some (.jlist xs) => robustEffects name xs
    | _ => ([], [])
  pure (⟨name, start_frame, end_frame, track_type, file_path, clip_id,
    in_point_frame, track_index, effects⟩, w1 ++ w2 ++ w3 ++ w4)

/-- `create_video_clip_from_json_robust` (lines 1164-1231): the `try` body
above with the `except` fallback of lines 1222-1231, which builds a minimal
clip spanning frames 0..30 ("1 second at 30fps") that keeps the record's
`name`, `file_path` and `id`; the omitted constructor arguments take the
`VideoClip` defaults (`track_type="video"`, `in_point=0`, `track_index=0`).
The fallback itself reads the record with `.get`, so — exactly as in Python —
the function can only fail when the record is not a dict. -/
def create_video_clip_from_json_robust (clip_data : JVal) (timeline : Timeline) :
    Except PyErr (VideoClip × List String) :=
  match robust_clip_body clip_data timeline with
  | .ok r => .ok r
  | .error e =>
    match clip_data with
    | .jobj _ =>
      .ok (⟨clip_data.pyGetD "name" (.jstr "Error Clip"), 0, 30, .jstr "video",
        clip_data.pyGetD "file_path" .jnull, clip_data.pyGetD "id" .jnull, 0,
        .jint 0, []⟩,
        ["Failed to create VideoClip from data: " ++ e.pyStr])
    | _ => .error .attributeError

/-! ## Robust loading (command_api.py lines 205-436)

The external collaborators are folded into `LoaderEnv`: the fetched document
(`load_timeline_from_db`, assumed to have fetched successfully — persistence
failures are outside every claim), the asset-existence check
(`check_asset_availability`) and the asset-duration lookup
(`get_asset_duration`), plus the wall-clock string for migration timestamps.
`loading_stats` is the dict mutated in place throughout
`load_timeline_from_db_robust`; its `performance_metrics` (wall-clock
timing, lines 376-381) are not representable and carry no claim content, so
the embedded stats keep the four counters and the message list. -/

/-- The loader's `loading_stats` dict (lines 279-286, minus the wall-clock
`performance_metrics`). -/
structure LoadingStats where
  total_clips : Nat
  loaded_clips : Nat
  failed_clips : Nat
  missing_assets : Nat
  validation_errors : List String

def initialLoadingStats : LoadingStats := ⟨0, 0, 0, 0, []⟩

/-- The external collaborators of a single load. -/
structure LoaderEnv where
  doc : Option JVal
  assetExists : JVal → Bool
  assetDuration : Option Q
  now : String

/-- The loader's effect monad: stats mutation plus Python exceptions.
`EStateM`'s errors carry the state at the raise point, exactly as a Python
exception leaves prior in-place mutations of `loading_stats` visible. -/
abbrev LoadM := EStateM PyErr LoadingStats

def logValidationErrors (msgs : List String) : LoadM Unit :=
  modify fun s => { s with validation_errors := s.validation_errors ++ msgs }

def liftExc : Except PyErr α → LoadM α
  | .ok a => pure a
  | .error e => throw e

/-- `create_default_timeline` (lines 415-436): a fresh 30fps timeline, seeded
with one full-length clip for the primary asset when the duration lookup
returns one. -/
def create_default_timeline (env : LoaderEnv) (asset_path : String) : Timeline :=
  let timeline := Timeline.mk ⟨30, 1⟩ []
  match env.assetDuration with
  | some duration => timeline.load_video asset_path duration
  | none => timeline

/-- The `try` body of `load_timeline_from_db_enhanced` (lines 234-252).
Python defers the type check of a non-numeric frame rate to the first
frame conversion; the embedding surfaces the same `TypeError` at
`Timeline` construction. -/
def enhanced_body (env : LoaderEnv) (timeline_json0 : JVal) : Except PyErr Timeline := do
  let schema_version ← pyGetAttrD timeline_json0 "version" (.jstr "1.0")
  let stale ← pyLt schema_version (.jstr "2.0")
  let timeline_json ←
    if stale then do
      let (migrated, _w) ← migrate_timeline_schema env.now timeline_json0
      pure migrated
    else pure timeline_json0
  let timeline_data ← pyGetAttrD timeline_json "timeline" (.jobj [])
  let frJ ← pyGetAttrD timeline_data "frame_rate" (.jfloat ⟨30, 1⟩)
  let frame_rate ←
    match frJ.asNum with
    | some q => Except.ok q
    | none => Except.error PyErr.typeError
  let clipsJ ← pyGetAttrD timeline_json "clips" (.jlist [])
  let clips_data ← pyIter clipsJ
  let mut timeline := Timeline.mk frame_rate []
  for clip_data in clips_data do
    let video_clip ← create_video_clip_from_json clip_data timeline
    let track_index ← pyGetAttrD clip_data "track" (.jint 0)
    timeline := timeline.add_clip video_clip track_index
  pure timeline

/-- `load_timeline_from_db_enhanced` (lines 219-263): absent/falsy document
gives the default timeline; otherwise try the v2.0 path, fall back to the
legacy `Timeline.from_dict`, then to the default timeline.  The `Option`
result mirrors the `Optional[Timeline]` annotation (every path of the
embedding is `some`; the robust loader's fallback checks truthiness). -/
def load_timeline_from_db_enhanced (env : LoaderEnv) (asset_path : String) :
    Option Timeline :=
  match env.doc with
  | none => some (create_default_timeline env asset_path)
  | some timeline_json =>
    if !timeline_json.truthy then some (create_default_timeline env asset_path)
    else
      match enhanced_body env timeline_json with
      | .ok timeline => some timeline
      | .error _ =>
        match Timeline.from_dict timeline_json with
        | .ok timeline => some timeline
        | .error _ => some (create_default_timeline env asset_path)

/-- The body of the loader's per-clip `try` (lines 333-360): validate the
record (recording failures; aborting only in strict mode), check asset
availability, build the clip robustly, normalise the target track index and
append, counting the clip as loaded. -/
def loadClipBody (env : LoaderEnv) (va ap : Bool) (tl : Timeline) (i : Nat)
    (clip_data : JVal) : LoadM Timeline := do
  let clip_validation ← liftExc (validate_clip_data clip_data tl)
  if !clip_validation.valid then
    logValidationErrors clip_validation.errors
    if !ap then
      throw (.valueError ("Clip " ++ toString i ++ " validation failed: "
        ++ String.intercalate ", " clip_validation.errors))
  if va then
    let fp ← liftExc (pyGetAttrD clip_data "file_path" .jnull)
    if fp.truthy then
      if !(env.assetExists fp) then
        modify fun s => { s with missing_assets := s.missing_assets + 1 }
        logValidationErrors ["Missing asset: " ++ fp.pyStr]
        if !ap then
          throw (.fileNotFoundError ("Asset not found: " ++ fp.pyStr))
  let robustResult ← liftExc (create_video_clip_from_json_robust clip_data tl)
  let video_clip := robustResult.1
  let track_index0 ← liftExc (pyGetAttrD clip_data "track" (.jint 0))
  let negTrack ← liftExc (pyLt track_index0 (.jint 0))
  let track_index ←
    if negTrack then do
      logValidationErrors ["Invalid track index " ++ track_index0.pyStr ++ ", using 0"]
      pure (JVal.jint 0)
    else pure track_index0
  let tl := tl.add_clip video_clip track_index
  modify fun s => { s with loaded_clips := s.loaded_clips + 1 }
  pure tl

/-- The clip loop of lines 332-369: each record runs under its own
`try/except`; a failure counts in `failed_clips`, is recorded, and either
lets the loop continue with the timeline unchanged (partial mode) or
re-raises (strict mode). -/
def loadClipsLoop (env : LoaderEnv) (va ap : Bool) :
    Nat → Timeline → List JVal → LoadM Timeline
  | _, tl, [] => pure tl
  | i, tl, clip_data :: rest => do
    let tl' ← tryCatch (loadClipBody env va ap tl i clip_data) fun clip_error => do
      modify fun s => { s with failed_clips := s.failed_clips + 1 }
      logValidationErrors ["Failed to load clip " ++ toString i ++ ": " ++ clip_error.pyStr]
      if !ap then
        throw clip_error
      pure tl
    loadClipsLoop env va ap (i + 1) tl' rest

/-- Outcome of the loader's outer `try` body: either one of the two early
`return create_default_timeline(asset_path)` statements (steps 1-2, which do
not attach `loading_stats`), or the fully loaded timeline of step 8. -/
inductive InnerOutcome where
  | earlyDefault
  | loaded (tl : Timeline)

/-- Steps 1-8 of `load_timeline_from_db_robust` (lines 290-395), the code
inside its outer `try`. -/
def load_inner (env : LoaderEnv) (va ap : Bool) : LoadM InnerOutcome := do
  let timeline_json ←
    match env.doc with
    | none => return .earlyDefault
    | some d => pure d
  if !timeline_json.truthy then
    return .earlyDefault
  let validation_result ← liftExc (validate_timeline_json_structure timeline_json)
  if !validation_result.valid then
    logValidationErrors validation_result.errors
    if !ap then
      return .earlyDefault
  let schema_version ← liftExc (pyGetAttrD timeline_json "version" (.jstr "1.0"))
  let stale ← liftExc (pyLt schema_version (.jstr "2.0"))
  let timeline_json ←
    if stale then do
      let (migrated, _w) ← liftExc (migrate_timeline_schema env.now timeline_json)
      let revalidation ← liftExc (validate_timeline_json_structure migrated)
      if !revalidation.valid then
        logValidationErrors revalidation.errors
      pure migrated
    else pure timeline_json
  let timeline_data ← liftExc (pyGetAttrD timeline_json "timeline" (.jobj []))
  let frJ ← liftExc (pyGetAttrD timeline_data "frame_rate" (.jfloat ⟨30, 1⟩))
  let geOne ← liftExc (pyLe (.jfloat ⟨1, 1⟩) frJ)
  let inRange ←
    if geOne then liftExc (pyLe frJ (.jfloat ⟨120, 1⟩))
    else pure false
  let frame_rate : Q ←
    if !inRange then do
      logValidationErrors ["Invalid frame rate corrected to 30.0"]
      pure ⟨30, 1⟩
    else
      match frJ.asNum with
      | some q => pure q
      | none => throw .typeError
  let timeline := Timeline.mk frame_rate []
  let clipsJ ← liftExc (pyGetAttrD timeline_json "clips" (.jlist []))
  let clips_data ← liftExc (pyIter clipsJ)
  modify fun s => { s with total_clips := clips_data.length }
  let tl ← loadClipsLoop env va ap 0 timeline clips_data
  let timeline_validation := validate_timeline_integrity tl
  if !timeline_validation.valid then
    logValidationErrors timeline_validation.errors
  pure (.loaded tl)

/-- `load_timeline_from_db_robust` (lines 265-413).  The second component is
the `loading_stats` attribute: attached on the success path and on both
fallback paths of the outer `except`, absent on the two early default
returns.  The outer `except` catches **every** exception from steps 1-8; in
partial mode it first retries with the enhanced loader, and in every case it
ends by returning a timeline — never re-raising. -/
def load_timeline_from_db_robust (env : LoaderEnv) (asset_path : String)
    (validate_assets allow_partial_load : Bool) : Timeline × Option LoadingStats :=
  match (load_inner env validate_assets allow_partial_load).run initialLoadingStats with
  | .ok .earlyDefault _ => (create_default_timeline env asset_path, none)
  | .ok (.loaded tl) stats => (tl, some stats)
  | .error _ stats =>
    if allow_partial_load then
      match load_timeline_from_db_enhanced env asset_path with
      | some fallback_timeline => (fallback_timeline, some stats)
      | none => (create_default_timeline env asset_path, some stats)
    else
      (create_default_timeline env asset_path, some stats)

/-! ## Concrete fixtures used by the theorems below -/

/-- The §8 migration example's v1.0 clip: `start=0, end=150, in_point=0`,
carrying the `_type` marker the migrator filters on. -/
def exampleV1Clip : JVal := .jobj [
  ("_type", .jstr "VideoClip"),
  ("clip_id", .jstr "clip1"),
  ("name", .jstr "Clip 1"),
  ("file_path", .jstr "video.mp4"),
  ("start", .jint 0),
  ("end", .jint 150),
  ("in_point", .jint 0),
  ("track_index", .jint 0),
  ("track_type", .jstr "video"),
  ("effects", .jlist [])]

/-- A v1.0 document with `frame_rate=30` and one track holding the clip
above. -/
def exampleV1Doc : JVal := .jobj [
  ("version", .jstr "1.0"),
  ("frame_rate", .jint 30),
  ("tracks", .jlist [.jobj [("clips", .jlist [exampleV1Clip])]])]

/-- The same document without a document-level `frame_rate` (the migrator
then divides by the default 30.0). -/
def exampleV1DocNoFrameRate : JVal := .jobj [
  ("version", .jstr "1.0"),
  ("tracks", .jlist [.jobj [("clips", .jlist [exampleV1Clip])]])]

/-- The v2.0 clip the migration example must produce:
`timeline_start=0.0, timeline_end=5.0, duration=5.0, in_point=0.0`. -/
def expectedMigratedClip : JVal := .jobj [
  ("id", .jstr "clip1"),
  ("name", .jstr "Clip 1"),
  ("file_path", .jstr "video.mp4"),
  ("timeline_start", .jfloat ⟨0, 1⟩),
  ("timeline_end", .jfloat ⟨5, 1⟩),
  ("duration", .jfloat ⟨5, 1⟩),
  ("in_point", .jfloat ⟨0, 1⟩),
  ("track", .jint 0),
  ("type", .jstr "video"),
  ("effects", .jlist [])]

/-- The full migrated form of `exampleV1Doc` under timestamp string `"T"`. -/
def exampleV1MigratedDoc : JVal := .jobj [
  ("version", .jstr "2.0"),
  ("timeline", .jobj [
    ("frame_rate", .jint 30),
    ("width", .jint 1920),
    ("height", .jint 1080),
    ("sample_rate", .jint 48000),
    ("channels", .jint 2),
    ("duration", .jfloat ⟨5, 1⟩)]),
  ("clips", .jlist [expectedMigratedClip]),
  ("transitions", .jlist []),
  ("metadata", .jobj [
    ("created_at", .jstr "TZ"),
    ("updated_at", .jstr "TZ"),
    ("schema_version", .jstr "2.0"),
    ("migrated_from", .jstr "1.0")])]

/-- A document whose version string is neither "1.0" nor "2.0". -/
def unknownVersionDoc : JVal := .jobj [
  ("version", .jstr "0.5"),
  ("timeline", .jobj [("frame_rate", .jint 30)]),
  ("clips", .jlist [])]

/-- An in-memory clip on frames `[s, e)` of the video track. -/
def mkTestClip (name : String) (s e : Int) : VideoClip :=
  ⟨.jstr name, s, e, .jstr "video", .jnull, .jnull, 0, .jint 0, []⟩

/-- Track 0 holding `[0s,5s)` and `[4s,8s)` at 30fps (frames `[0,150)` and
`[120,240)`). -/
def overlapTimeline : Timeline :=
  ⟨⟨30, 1⟩, [⟨.jstr "video", .jint 0, [mkTestClip "A" 0 150, mkTestClip "B" 120 240]⟩]⟩

/-- Track 0 holding the touching clips `[0s,5s)` and `[5s,8s)` at 30fps. -/
def touchingTimeline : Timeline :=
  ⟨⟨30, 1⟩, [⟨.jstr "video", .jint 0, [mkTestClip "A" 0 150, mkTestClip "B" 150 240]⟩]⟩

/-- Track 0 holding three clips with **two** violating adjacent pairs:
`[0,300)`, `[150,600)`, `[450,900)`. -/
def tripleOverlapTimeline : Timeline :=
  ⟨⟨30, 1⟩, [⟨.jstr "video", .jint 0,
    [mkTestClip "A" 0 300, mkTestClip "B" 150 600, mkTestClip "C" 450 900]⟩]⟩

/-- A timeline whose only anomaly is one clip of 25 hours
(`25 * 3600 * 30 = 2700000` frames at 30fps). -/
def longClipTimeline : Timeline :=
  ⟨⟨30, 1⟩, [⟨.jstr "video", .jint 0, [mkTestClip "L" 0 2700000]⟩]⟩

/-- The "suspiciously long clip" message `validate_timeline_integrity` emits
for a clip of the given duration. -/
def suspiciousMsg (frame_rate : Q) (c : VideoClip) : String :=
  "Suspiciously long clip: " ++ c.name.pyStr ++ " duration is "
    ++ fmtOneDecimal (((Q.ofInt (c.end_frame - c.start_frame)).div frame_rate).div ⟨3600, 1⟩)
    ++ " hours"

/-- A well-formed v2.0 clip record on track 0, `[s, e)` seconds. -/
def mkClipRecord (cid name : String) (s e : Int) : JVal := .jobj [
  ("id", .jstr cid),
  ("name", .jstr name),
  ("file_path", .jstr "video.mp4"),
  ("timeline_start", .jint s),
  ("timeline_end", .jint e),
  ("duration", .jint (e - s)),
  ("in_point", .jint 0),
  ("track", .jint 0),
  ("type", .jstr "video"),
  ("effects", .jlist [])]

/-- A clip record that fails the Clip Validator (no `name` field) but whose
timing is otherwise sound. -/
def badClipRecord : JVal := .jobj [
  ("id", .jstr "c2"),
  ("timeline_start", .jint 2),
  ("timeline_end", .jint 3),
  ("track", .jint 0)]

/-- A v2.0 document with 5 clip records of which exactly one
(`badClipRecord`, at index 2) fails the Clip Validator. -/
def fiveClipDoc : JVal := .jobj [
  ("version", .jstr "2.0"),
  ("timeline", .jobj [("frame_rate", .jfloat ⟨30, 1⟩), ("duration", .jint 5)]),
  ("clips", .jlist [
    mkClipRecord "c0" "A" 0 1,
    mkClipRecord "c1" "B" 1 2,
    badClipRecord,
    mkClipRecord "c3" "D" 3 4,
    mkClipRecord "c4" "E" 4 5])]

/-- Loader environment serving `fiveClipDoc` with every asset present and no
duration lookup for the default-timeline seeding. -/
def fiveClipEnv : LoaderEnv := ⟨some fiveClipDoc, fun _ => true, none, "T"⟩

/-- A record whose `timeline_start` is a string, making the robust clip
builder's `try` body raise (`"x" < 0` is a `TypeError`) so its fallback
runs. -/
def badStartRecord : JVal := .jobj [
  ("id", .jstr "bad1"),
  ("name", .jstr "Bad Clip"),
  ("timeline_start", .jstr "x"),
  ("timeline_end", .jint 3)]

/-- A bare 30fps timeline for feeding the clip builders. -/
def emptyTimeline30 : Timeline := Timeline.mk ⟨30, 1⟩ []

/-- A clip record with `timeline_start=2`, `timeline_end=1` (float fields),
exercising the `timeline_end <= timeline_start` correction. -/
def invertedClipRecord : JVal := .jobj [
  ("id", .jstr "inv1"),
  ("name", .jstr "Inverted"),
  ("timeline_start", .jfloat ⟨2, 1⟩),
  ("timeline_end", .jfloat ⟨1, 1⟩)]

/-! ## Helper lemmas -/

/-- Splitting a successful `Except` bind. -/
theorem exceptBindOk {α β : Type} {x : Except PyErr α} {f : α → Except PyErr β} {b : β}
    (h : (x >>= f) = .ok b) : ∃ a, x = .ok a ∧ f a = .ok b := by
  cases x with
  | ok a => exact ⟨a, rfl, h⟩
  | error e => simp [Bind.bind, Except.bind] at h

/-- A validator result is valid exactly when its error list is empty. -/
theorem mkValidationResult_valid_iff (es : List String) :
    (mkValidationResult es).valid = true ↔ (mkValidationResult es).errors = [] := by
  cases es <;> simp [mkValidationResult]

/-- A validator result with a recorded error is invalid. -/
theorem mkValidationResult_valid_false_of_mem {a : String} {es : List String}
    (h : a ∈ es) : (mkValidationResult es).valid = false := by
  cases es with
  | nil => cases h
  | cons b bs => simp [mkValidationResult]

/-- `Q.norm m 1` is already normalized. -/
theorem q_norm_one (m : Int) : Q.norm m 1 = ⟨m, 1⟩ := by
  simp [Q.norm, Nat.gcd_one_right]

/-- Adding the Python int `1` to any number produces a number holding the
rational successor (int stays int, float stays float). -/
theorem pyAdd_one {a : JVal} {x : Q} (ha : a.asNum = some x) :
    ∃ c, pyAdd a (.jint 1) = .ok c ∧ c.asNum = some (x.add ⟨1, 1⟩) := by
  cases a with
  | jbool b =>
    cases b <;> simp [JVal.asNum] at ha <;> subst ha <;>
      exact ⟨_, rfl, by decide⟩
  | jint n =>
    simp [JVal.asNum] at ha
    subst ha
    refine ⟨.jint ((Q.add ⟨n, 1⟩ ⟨1, 1⟩).num), by simp [pyAdd, JVal.asNum, JVal.pyIsInt], ?_⟩
    have : Q.add ⟨n, 1⟩ ⟨1, 1⟩ = ⟨n + 1, 1⟩ := by
      simp [Q.add, q_norm_one]
    rw [this]
    simp [JVal.asNum]
  | jfloat q =>
    simp [JVal.asNum] at ha
    subst ha
    exact ⟨.jfloat (q.add ⟨1, 1⟩), rfl, rfl⟩
  | jnull => simp [JVal.asNum] at ha
  | jstr s => simp [JVal.asNum] at ha
  | jlist xs => simp [JVal.asNum] at ha
  | jobj fs => simp [JVal.asNum] at ha

/-! ## Claim theorems -/

/-- C7: migrating the v1.0 document with `frame_rate=30` and one track whose
clip has `start=0, end=150, in_point=0` produces the v2.0 document whose
`clips` array holds exactly the clip `timeline_start=0.0, timeline_end=5.0,
duration=5.0, in_point=0.0` (frame fields divided by the document-level
frame rate); and without a document-level `frame_rate` the divisor defaults
to 30.0, producing the same clip. -/
theorem C7_theorem :
    migrate_timeline_schema "T" exampleV1Doc = .ok (exampleV1MigratedDoc, [])
    ∧ (migrate_timeline_schema "T" exampleV1DocNoFrameRate).map
        (fun r => r.1.pyGet "clips") = .ok (some (.jlist [expectedMigratedClip])) :=
  ⟨rfl, rfl⟩

/-- C8: on a 30fps track holding `[0s,5s)` and `[4s,8s)` the Integrity
Validator reports exactly one overlap error naming both clips and their
boundary frames; on touching clips `[0s,5s)` and `[5s,8s)` it reports
nothing (result valid); and with three clips forming two violating adjacent
pairs it reports both pairs instead of stopping at the first. -/
theorem C8_theorem :
    (validate_timeline_integrity overlapTimeline).errors =
      ["Clip overlap detected on track video: A ends at 150 but B starts at 120"]
    ∧ (validate_timeline_integrity touchingTimeline).errors = []
    ∧ (validate_timeline_integrity touchingTimeline).valid = true
    ∧ (validate_timeline_integrity tripleOverlapTimeline).errors =
        ["Clip overlap detected on track video: A ends at 300 but B starts at 150",
         "Clip overlap detected on track video: B ends at 600 but C starts at 450"] :=
  ⟨rfl, rfl, rfl, rfl⟩

/-- C4 counterexample: a timeline whose only anomaly is a 25-hour clip gets
`valid = false` from the Integrity Validator — the finding lands in the
`errors` list, so the claim's `valid = true` fails at this input. -/
theorem C4_counterexample :
    (validate_timeline_integrity longClipTimeline).valid = false
    ∧ (validate_timeline_integrity longClipTimeline).errors =
        ["Suspiciously long clip: L duration is 25.0 hours"] :=
  ⟨rfl, rfl⟩

/-- C4 (amended): a clip whose timeline duration exceeds 24 hours is
recorded as a "Suspiciously long clip" entry in the Integrity Validator's
`errors` list, and the result therefore has `valid = false` — the signal is
treated as an error, not as a warning. -/
theorem C4_amended_theorem (tl : Timeline) (c : VideoClip)
    (hc : c ∈ allClips tl)
    (hfr : tl.frame_rate.isZero = false)
    (hlong : Q.blt ⟨24, 1⟩
      (((Q.ofInt (c.end_frame - c.start_frame)).div tl.frame_rate).div ⟨3600, 1⟩) = true) :
    suspiciousMsg tl.frame_rate c ∈ (validate_timeline_integrity tl).errors
    ∧ (validate_timeline_integrity tl).valid = false := by
  have hmem : suspiciousMsg tl.frame_rate c ∈ timeline_integrity_errors tl := by
    unfold timeline_integrity_errors
    rw [hfr]
    simp only [Bool.false_eq_true, if_false]
    refine List.mem_append_right _ ?_
    rw [List.mem_flatten]
    refine ⟨clipTimingErrors tl.frame_rate c, List.mem_map_of_mem _ hc, ?_⟩
    unfold clipTimingErrors suspiciousMsg
    simp only [hlong]
    simp
  exact ⟨hmem, mkValidationResult_valid_false_of_mem hmem⟩

/-- C4 witness: the amended theorem applied to the 25-hour-clip timeline. -/
theorem C4_witness :
    suspiciousMsg ⟨30, 1⟩ (mkTestClip "L" 0 2700000) ∈
      (validate_timeline_integrity longClipTimeline).errors
    ∧ (validate_timeline_integrity longClipTimeline).valid = false :=
  C4_amended_theorem longClipTimeline (mkTestClip "L" 0 2700000)
    (List.Mem.head _) rfl rfl

/-- C1 counterexample: loading the 5-record document (exactly one record,
index 2, fails the Clip Validator) with `allow_partial_load=true` yields
`loaded_clips=5, failed_clips=0` — not the `loaded_clips=4, failed_clips=1`
the claim asserts, because the failing record is not skipped. -/
theorem C1_counterexample :
    ((load_timeline_from_db_robust fiveClipEnv "asset.mp4" true true).2.map
        (fun s => (s.loaded_clips, s.failed_clips))) = some (5, 0)
    ∧ ((load_timeline_from_db_robust fiveClipEnv "asset.mp4" true true).2.map
        (fun s => (s.loaded_clips, s.failed_clips))) ≠ some (4, 1) := by
  refine ⟨rfl, ?_⟩
  intro h
  rw [show ((load_timeline_from_db_robust fiveClipEnv "asset.mp4" true true).2.map
        (fun s => (s.loaded_clips, s.failed_clips))) = some (5, 0) from rfl] at h
  simp at h

/-- C1 (amended): with `allow_partial_load=true` a clip record that fails
the Clip Validator has its errors recorded in `validation_errors` but is
still constructed (with corrective defaulting) and added to the `Timeline`;
`failed_clips` counts only records whose processing raises.  The 5-record
document with exactly one validator failure yields `total_clips=5,
loaded_clips=5, failed_clips=0`, the failing record's error recorded, and a
non-empty `Timeline` holding all five clips (including id `c2`, the failing
one). -/
theorem C1_amended_theorem :
    ((load_timeline_from_db_robust fiveClipEnv "asset.mp4" true true).2.map
        (fun s => (s.total_clips, s.loaded_clips, s.failed_clips))) = some (5, 5, 0)
    ∧ ((load_timeline_from_db_robust fiveClipEnv "asset.mp4" true true).2.map
        (fun s => s.validation_errors)) = some ["Missing required field: name"]
    ∧ (allClips (load_timeline_from_db_robust fiveClipEnv "asset.mp4" true true).1).map
        (fun c => c.clip_id) =
        [.jstr "c0", .jstr "c1", .jstr "c2", .jstr "c3", .jstr "c4"] :=
  ⟨rfl, rfl, rfl⟩

/-- C2 counterexample: with `allow_partial_load=false` and a record that
fails the Clip Validator, `load_timeline_from_db_robust` does not propagate
the raised error — its outer `except` catches it and the call returns the
default (empty, 30fps) timeline with the loading stats attached
(`failed_clips=1`), refuting "raises rather than returning a Timeline". -/
theorem C2_counterexample :
    load_timeline_from_db_robust fiveClipEnv "asset.mp4" true false =
      (Timeline.mk ⟨30, 1⟩ [], some ⟨5, 2, 1, 0,
        ["Missing required field: name",
         "Failed to load clip 2: Clip 2 validation failed: Missing required field: name"]⟩) :=
  rfl

/-- C2 (amended): in strict mode (`allow_partial_load=false`), whenever the
loader's `try` body raises (for example because a clip failed validation or
a referenced asset is missing), the outer `except` swallows the error and
the loader returns the default timeline for the asset, with the
mutated-so-far loading stats attached — it never re-raises. -/
theorem C2_amended_theorem (env : LoaderEnv) (asset_path : String) (va : Bool)
    (st : LoadingStats) (e : PyErr)
    (h : (load_inner env va false).run initialLoadingStats = .error e st) :
    load_timeline_from_db_robust env asset_path va false =
      (create_default_timeline env asset_path, some st) := by
  unfold load_timeline_from_db_robust
  rw [h]
  rfl

/-- C2 witness: the amended theorem applied to the strict-mode load of the
5-record document. -/
theorem C2_witness :
    load_timeline_from_db_robust fiveClipEnv "other.mp4" true false =
      (create_default_timeline fiveClipEnv "other.mp4", some ⟨5, 2, 1, 0,
        ["Missing required field: name",
         "Failed to load clip 2: Clip 2 validation failed: Missing required field: name"]⟩) :=
  C2_amended_theorem fiveClipEnv "other.mp4" true _
    (.valueError "Clip 2 validation failed: Missing required field: name") rfl

/-- C3 counterexample: the record with `timeline_start=2, timeline_end=1` at
30fps loads with `start_frame=60, end_frame=90` — the end is 30 frames
(one second), not one frame, after the start. -/
theorem C3_counterexample :
    ∃ clip ws,
      create_video_clip_from_json_robust invertedClipRecord emptyTimeline30 = .ok (clip, ws)
      ∧ clip.start_frame = 60 ∧ clip.end_frame = 90
      ∧ clip.end_frame ≠ clip.start_frame + 1 :=
  ⟨_, _, rfl, rfl, rfl, by decide⟩

/-- Successful bind reduces. -/
theorem ok_bind {α β : Type} (a : α) (f : α → Except PyErr β) :
    (Except.ok a >>= f) = f a := rfl

/-- A document whose `version` field is "2.0" is returned unchanged by the
migrator, with no warning. -/
theorem migrate_v2_identity (now : String) (d : JVal)
    (h : d.pyGet "version" = some (.jstr "2.0")) :
    migrate_timeline_schema now d = .ok (d, []) := by
  cases d with
  | jobj fs =>
    simp only [JVal.pyGet] at h
    have e : pyEq (JVal.jstr "2.0") (JVal.jstr "2.0") = true := rfl
    simp [migrate_timeline_schema, pyGetAttrD, h, ok_bind, e]
    rfl
  | jnull => simp [JVal.pyGet] at h
  | jbool b => simp [JVal.pyGet] at h
  | jint n => simp [JVal.pyGet] at h
  | jfloat q => simp [JVal.pyGet] at h
  | jstr s => simp [JVal.pyGet] at h
  | jlist xs => simp [JVal.pyGet] at h

/-- A successful v1.0 migration emits no warning and stamps the output's
`version` field with "2.0" (its first key). -/
theorem migrate_v1_ok_shape (now : String) (fs : List (String × JVal)) {d' : JVal}
    {w : List String}
    (hv : (JVal.lookup fs "version").getD (.jstr "1.0") = .jstr "1.0")
    (h : migrate_timeline_schema now (.jobj fs) = .ok (d', w)) :
    w = [] ∧ d'.pyGet "version" = some (.jstr "2.0") := by
  have e1 : pyEq (JVal.jstr "1.0") (JVal.jstr "2.0") = false := rfl
  have e2 : pyEq (JVal.jstr "1.0") (JVal.jstr "1.0") = true := rfl
  simp only [migrate_timeline_schema, pyGetAttrD, hv, ok_bind, e1, e2,
    Bool.false_eq_true, if_false, if_true] at h
  obtain ⟨tracks, htracks, h⟩ := exceptBindOk h
  obtain ⟨clips, hclips, h⟩ := exceptBindOk h
  injection h with h
  injection h with h1 h2
  subst h1
  exact ⟨h2.symm, by simp [JVal.pyGet, JVal.lookup, TIMELINE_SCHEMA_VERSION]⟩

/-- C5: migration is idempotent — for every v1.0 document (version field
"1.0" or absent) a successful migration yields a document on which a second
migration is the identity (same document, no warnings), and for every
document whose version field is "2.0" the migrator is the identity. -/
theorem C5_theorem :
    (∀ (now1 now2 : String) (fs : List (String × JVal)) (d' : JVal) (w : List String),
      (JVal.lookup fs "version").getD (.jstr "1.0") = .jstr "1.0" →
      migrate_timeline_schema now1 (.jobj fs) = .ok (d', w) →
      migrate_timeline_schema now2 d' = .ok (d', []) ∧ w = [])
    ∧ (∀ (now : String) (d : JVal), d.pyGet "version" = some (.jstr "2.0") →
        migrate_timeline_schema now d = .ok (d, [])) := by
  constructor
  · intro now1 now2 fs d' w hv h
    obtain ⟨hw, hver⟩ := migrate_v1_ok_shape now1 fs hv h
    exact ⟨migrate_v2_identity now2 d' hver, hw⟩
  · intro now d h
    exact migrate_v2_identity now d h

/-- C5 witness: idempotence at the concrete v1.0 example document, and the
v2.0 identity at its migrated form. -/
theorem C5_witness :
    (migrate_timeline_schema "U" exampleV1MigratedDoc = .ok (exampleV1MigratedDoc, [])
      ∧ ([] : List String) = [])
    ∧ migrate_timeline_schema "V" exampleV1MigratedDoc = .ok (exampleV1MigratedDoc, []) :=
  ⟨C5_theorem.1 "T" "U" [("version", .jstr "1.0"), ("frame_rate", .jint 30),
      ("tracks", .jlist [.jobj [("clips", .jlist [exampleV1Clip])]])]
      exampleV1MigratedDoc [] rfl rfl,
    C5_theorem.2 "V" exampleV1MigratedDoc rfl⟩

/-- C6: a document whose version string is neither "1.0" nor "2.0" is
returned unchanged by the migrator with the "Unknown timeline schema
version" warning recorded — and (by the `Except`-free success shape) no
exception is raised. -/
theorem C6_theorem (fs : List (String × JVal)) (v now : String)
    (hv : JVal.lookup fs "version" = some (.jstr v))
    (h1 : v ≠ "1.0") (h2 : v ≠ "2.0") :
    migrate_timeline_schema now (.jobj fs) =
      .ok (.jobj fs, ["Unknown timeline schema version: " ++ v]) := by
  simp [migrate_timeline_schema, pyGetAttrD, hv, ok_bind, pyEq, JVal.asNum,
    beq_iff_eq, h1, h2, JVal.pyStr]
  rfl

/-- C6 witness: the version-"0.5" document passes through unchanged with the
warning recorded. -/
theorem C6_witness :
    migrate_timeline_schema "T" unknownVersionDoc =
      .ok (unknownVersionDoc, ["Unknown timeline schema version: 0.5"]) :=
  C6_theorem [("version", .jstr "0.5"), ("timeline", .jobj [("frame_rate", .jint 30)]),
    ("clips", .jlist [])] "0.5" "T" rfl (by decide) (by decide)

/-- C9: each of the three validators returns a result whose `valid` flag is
true exactly when its `errors` list is empty — for the two fallible
validators, on every input on which they return at all. -/
theorem C9_theorem :
    (∀ (tj : JVal) (r : ValidationResult),
      validate_timeline_json_structure tj = .ok r → (r.valid = true ↔ r.errors = []))
    ∧ (∀ (cd : JVal) (tl : Timeline) (r : ValidationResult),
      validate_clip_data cd tl = .ok r → (r.valid = true ↔ r.errors = []))
    ∧ (∀ tl : Timeline,
      (validate_timeline_integrity tl).valid = true
        ↔ (validate_timeline_integrity tl).errors = []) := by
  refine ⟨?_, ?_, ?_⟩
  · intro tj r h
    unfold validate_timeline_json_structure at h
    cases he : timeline_structure_errors tj with
    | ok es =>
      rw [he] at h
      simp only [Except.map] at h
      injection h with h
      subst h
      exact mkValidationResult_valid_iff es
    | error e =>
      rw [he] at h
      simp [Except.map] at h
  · intro cd tl r h
    unfold validate_clip_data at h
    cases he : clip_data_errors cd tl with
    | ok es =>
      rw [he] at h
      simp only [Except.map] at h
      injection h with h
      subst h
      exact mkValidationResult_valid_iff es
    | error e =>
      rw [he] at h
      simp [Except.map] at h
  · intro tl
    exact mkValidationResult_valid_iff (timeline_integrity_errors tl)

/-- C9 witness: the structural validator at the well-formed five-clip
document, the clip validator at the name-less record, the integrity
validator at the touching-clips timeline. -/
theorem C9_witness :
    ((mkValidationResult []).valid = true ↔ (mkValidationResult []).errors = [])
    ∧ ((mkValidationResult ["Missing required field: name"]).valid = true
        ↔ (mkValidationResult ["Missing required field: name"]).errors = [])
    ∧ ((validate_timeline_integrity touchingTimeline).valid = true
        ↔ (validate_timeline_integrity touchingTimeline).errors = []) :=
  ⟨C9_theorem.1 fiveClipDoc _ rfl,
    C9_theorem.2.1 badClipRecord emptyTimeline30 _ rfl,
    C9_theorem.2.2 touchingTimeline⟩

/-- C10: for every dict clip record the robust clip builder returns a
`VideoClip` (never propagates an exception), and whenever its `try` body
fails it returns the fallback clip with `start_frame=0`, `end_frame=30`,
carrying the record's `name`, `file_path` and `id` (with defaults
"Error Clip"/None/None when absent). -/
theorem C10_theorem (fs : List (String × JVal)) (tl : Timeline) :
    (∃ r, create_video_clip_from_json_robust (.jobj fs) tl = .ok r)
    ∧ (∀ e : PyErr, robust_clip_body (.jobj fs) tl = .error e →
      create_video_clip_from_json_robust (.jobj fs) tl =
        .ok (⟨JVal.pyGetD (.jobj fs) "name" (.jstr "Error Clip"), 0, 30, .jstr "video",
          JVal.pyGetD (.jobj fs) "file_path" .jnull, JVal.pyGetD (.jobj fs) "id" .jnull,
          0, .jint 0, []⟩,
          ["Failed to create VideoClip from data: " ++ e.pyStr])) := by
  constructor
  · unfold create_video_clip_from_json_robust
    cases h : robust_clip_body (.jobj fs) tl with
    | ok r => exact ⟨r, rfl⟩
    | error e => exact ⟨_, rfl⟩
  · intro e h
    unfold create_video_clip_from_json_robust
    rw [h]

/-- C10 witness: the fallback at the record whose string `timeline_start`
makes the `try` body raise a `TypeError`. -/
theorem C10_witness :
    create_video_clip_from_json_robust badStartRecord emptyTimeline30 =
      .ok (⟨.jstr "Bad Clip", 0, 30, .jstr "video", .jnull, .jstr "bad1", 0, .jint 0, []⟩,
        ["Failed to create VideoClip from data: TypeError"]) :=
  (C10_theorem [("id", .jstr "bad1"), ("name", .jstr "Bad Clip"),
    ("timeline_start", .jstr "x"), ("timeline_end", .jint 3)] emptyTimeline30).2
    .typeError rfl

/-- A successful `pure`-bind reduces. -/
theorem except_pure_bind {α β : Type} (a : α) (f : α → Except PyErr β) :
    ((pure a : Except PyErr α) >>= f) = f a := rfl

/-- `pure` is `Except.ok`. -/
theorem except_pure_eq_ok {α : Type} (a : α) : (pure a : Except PyErr α) = .ok a := rfl

/-- C3 (amended): for every dict clip record with a numeric, non-negative
start `s` and a numeric end `e ≤ s` (and a numeric non-negative in-point),
the robust clip builder produces a clip whose end is **one second** after
its start — `end_frame = seconds_to_frames(s + 1)`, which is `frame_rate`
frames (not one frame) past `start_frame` — and records the
"Invalid end time ..., adding 1 second" warning. -/
theorem C3_amended_theorem (fs : List (String × JVal)) (tl : Timeline)
    (vs ve : JVal) (s e p : Q)
    (hs : JVal.pyGetD (.jobj fs) "timeline_start" (JVal.pyGetD (.jobj fs) "start" (.jint 0)) = vs)
    (hvs : vs.asNum = some s)
    (hsneg : s.blt ⟨0, 1⟩ = false)
    (he : JVal.pyGetD (.jobj fs) "timeline_end" (JVal.pyGetD (.jobj fs) "end" (.jint 0)) = ve)
    (hve : ve.asNum = some e)
    (hle : e.ble s = true)
    (hip : (JVal.pyGetD (.jobj fs) "in_point" (.jint 0)).asNum = some p)
    (hpneg : p.blt ⟨0, 1⟩ = false) :
    ∃ clip ws,
      create_video_clip_from_json_robust (.jobj fs) tl = .ok (clip, ws)
      ∧ clip.start_frame = Q.roundq (s.mul tl.frame_rate)
      ∧ clip.end_frame = Q.roundq ((s.add ⟨1, 1⟩).mul tl.frame_rate)
      ∧ ("Invalid end time " ++ ve.pyStr ++ " for clip "
          ++ (JVal.pyGetD (.jobj fs) "name" (.jstr "unknown")).pyStr
          ++ ", adding 1 second") ∈ ws := by
  obtain ⟨bumped, hb, hbn⟩ := pyAdd_one hvs
  have a0 : (JVal.jint 0).asNum = some ⟨0, 1⟩ := rfl
  simp only [JVal.pyGetD, JVal.pyGet] at hs he hip
  simp only [create_video_clip_from_json_robust, robust_clip_body, pyGetAttrD, ok_bind,
    hs, he, pyLt, pyLe, hvs, hve, a0, hb, hbn, hip, hsneg, hle, hpneg,
    Timeline.seconds_to_frames, Bool.false_eq_true, if_false, if_true, ok_bind,
    except_pure_bind, except_pure_eq_ok]
  refine ⟨_, _, rfl, rfl, rfl, ?_⟩
  simp
  exact Or.inl rfl

/-- C3 witness: the amended theorem at the record with
`timeline_start=2.0, timeline_end=1.0` on a 30fps timeline. -/
theorem C3_witness :
    ∃ clip ws,
      create_video_clip_from_json_robust invertedClipRecord emptyTimeline30 = .ok (clip, ws)
      ∧ clip.start_frame = Q.roundq (Q.mul ⟨2, 1⟩ ⟨30, 1⟩)
      ∧ clip.end_frame = Q.roundq (Q.mul (Q.add ⟨2, 1⟩ ⟨1, 1⟩) ⟨30, 1⟩)
      ∧ "Invalid end time 1.0 for clip Inverted, adding 1 second" ∈ ws :=
  C3_amended_theorem [("id", .jstr "inv1"), ("name", .jstr "Inverted"),
      ("timeline_start", .jfloat ⟨2, 1⟩), ("timeline_end", .jfloat ⟨1, 1⟩)]
    emptyTimeline30 (.jfloat ⟨2, 1⟩) (.jfloat ⟨1, 1⟩) ⟨2, 1⟩ ⟨1, 1⟩ ⟨0, 1⟩
    rfl rfl rfl rfl rfl rfl rfl rfl
